import Mathlib

/- Formal model of the spend-tracker ledger pipeline (streamlit_app.py).

A spreadsheet row is an association list from column names to cells.  A pandas
NaN — and the value a row shows for a column it does not carry after
`pd.concat(..., sort=False)` — is modelled by the `empty` cell.  Machine floats
are modelled by rationals. -/

inductive Cell where
  | str (s : String)
  | num (q : ℚ)
  | empty
deriving DecidableEq, Repr

abbrev Row := List (String × Cell)

/-- Value of column `c` in row `r`; a missing key reads as NaN (`Cell.empty`),
mirroring how pandas fills absent columns after a concat. -/
def Row.get (r : Row) (c : String) : Cell :=
  match r.lookup c with
  | some v => v
  | none => Cell.empty

/-- Python `str()` of a cell as produced by `.astype(str)`: NaN prints "nan".
(The rendering of numeric cells only matters where the source applies
`.astype(str)`, which the app only does to textual columns.) -/
def cellToStr : Cell → String
  | Cell.str s => s
  | Cell.num q => toString q
  | Cell.empty => "nan"

/-- ASCII lower-casing of one character (Python `.lower()`; every token the
app compares against is ASCII). -/
def lowerChar (c : Char) : Char :=
  if 65 ≤ c.toNat ∧ c.toNat ≤ 90 then Char.ofNat (c.toNat + 32) else c

/-- Python `str.lower()`. -/
def lowerStr (s : String) : String := ⟨s.data.map lowerChar⟩

def isWSChar (c : Char) : Bool := c == ' ' || c == '\t' || c == '\n' || c == '\r'

/-- Python `str.strip()` over ASCII whitespace. -/
def trimStr (s : String) : String :=
  ⟨((s.data.dropWhile isWSChar).reverse.dropWhile isWSChar).reverse⟩

/-- Split a character list on a separator character (`str.split(sep)`). -/
def splitCharList (sep : Char) : List Char → List (List Char)
  | [] => [[]]
  | c :: rest =>
    match splitCharList sep rest with
    | [] => if c == sep then [[], []] else [[c]]
    | g :: gs => if c == sep then [] :: g :: gs else (c :: g) :: gs

/-- Column presence (`"c" in df.columns`): in the association-list model a
column exists when some row carries the key. -/
def hasCol (df : List Row) (c : String) : Bool :=
  df.any (fun r => (r.lookup c).isSome)

def deletedTokens : List String := ["true", "t", "1", "yes"]

/-- Line 104: `df_raw["is_deleted"].astype(str).str.lower().isin(["true", "t", "1", "yes"])`. -/
def isDeletedRow (r : Row) : Bool :=
  deletedTokens.contains (lowerStr (cellToStr (Row.get r ("is_deleted"))))

/-- Lines 103-105: delete-filtering, applied only when the merged frame has an
`is_deleted` column. -/
def filterDeleted (df : List Row) : List Row :=
  if hasCol df ("is_deleted") then df.filter (fun r => !(isDeletedRow r)) else df

/-- Line 100: `pd.concat([history_df, append_df], ignore_index=True, sort=False)`. -/
def mergeRaw (hist app : List Row) : List Row := hist ++ app

/-- Provenance tag of a row: the `(_source_sheet, _sheet_row_idx)` pair added
by the reader. -/
def tagOf (r : Row) : Cell × Cell :=
  (Row.get r ("_source_sheet"), Row.get r ("_sheet_row_idx"))

inductive PipelineResult where
  | stopped (msg : String) (isError : Bool)
  | ledger (df : List Row)
deriving DecidableEq, Repr

/-- Lines 96-109: the guard `st.error`/`st.stop` when both sources are empty,
the concat, the delete-filter, and the `st.warning`/`st.stop` when nothing
survives.  `stopped msg isError` records a halt (`isError` is true for
`st.error`, false for `st.warning`). -/
def runMergePhase (hist app : List Row) : PipelineResult :=
  if hist.isEmpty && app.isEmpty then
    PipelineResult.stopped ("No data found in the Google Sheet.") true
  else
    let df := filterDeleted (mergeRaw hist app)
    if df.isEmpty then
      PipelineResult.stopped ("No visible rows (after filtering deleted entries).") false
    else PipelineResult.ledger df

/-- `df[k] = v` on one row: replace (or add) column `k`. -/
def setCol (r : Row) (k : String) (v : Cell) : Row :=
  (r.filter (fun p => p.1 != k)) ++ [(k, v)]

/-- Lines 58-68 (`_read_sheet_with_index`): a failed read degrades to an empty
frame; a successful read tags each row with its zero-based position
(`_sheet_row_idx`) and its provenance (`_source_sheet`). -/
def read_sheet_with_index (fetched : Except String (List Row)) (source_name : String) : List Row :=
  match fetched with
  | Except.error _ => []
  | Except.ok rows =>
      rows.enum.map (fun p =>
        setCol (setCol p.2 ("_sheet_row_idx") (Cell.num p.1)) ("_source_sheet") (Cell.str source_name))

/- ------------------ numeric coercion (lines 160-173) ------------------ -/

def allDigits (cs : List Char) : Bool := cs.all Char.isDigit

def digitsToNat (cs : List Char) : Nat :=
  cs.foldl (fun a c => a * 10 + (c.toNat - 48)) 0

/-- Unsigned decimal literal: digits, optionally with one decimal point
(either side of the point may be empty, but not both). -/
def parseUnsignedNumeric (cs : List Char) : Option ℚ :=
  let intPart := cs.takeWhile (fun c => c != '.')
  let rest := cs.dropWhile (fun c => c != '.')
  match rest with
  | [] =>
      if intPart.isEmpty ∨ ¬ (allDigits intPart = true) then none
      else some ((digitsToNat intPart : ℚ))
  | _ :: frac =>
      if (intPart.isEmpty ∧ frac.isEmpty) ∨ ¬ (allDigits intPart = true) ∨
          ¬ (allDigits frac = true) ∨ frac.any (fun c => c == '.') then none
      else some ((digitsToNat intPart : ℚ) + (digitsToNat frac : ℚ) / ((10 : ℚ) ^ frac.length))

/-- `pd.to_numeric(x, errors="coerce")` on a string: optional sign and a
decimal literal; anything else coerces to NaN (`none`). -/
def parseNumeric (s : String) : Option ℚ :=
  match (trimStr s).data with
  | [] => none
  | c :: cs =>
      if c == '-' then (parseUnsignedNumeric cs).map (fun q => -q)
      else if c == '+' then parseUnsignedNumeric cs
      else parseUnsignedNumeric (c :: cs)

/-- Line 165: `pd.to_numeric(sel_df[amt_col], errors="coerce").fillna(0.0)`. -/
def coerceAmount : Cell → ℚ
  | Cell.num q => q
  | Cell.str s => (parseNumeric s).getD 0
  | Cell.empty => 0

/-- A cell that `pd.to_numeric(..., errors="coerce")` turns into NaN (then
`fillna` turns into 0). -/
def unparsableAmount : Cell → Bool
  | Cell.num _ => false
  | Cell.empty => true
  | Cell.str s => (parseNumeric s).isNone

/-- Ordered column list of a frame built by concatenating row mappings:
first-occurrence order, no duplicates. -/
def dfColumns (df : List Row) : List String :=
  df.foldl (fun acc r => acc ++ ((r.map Prod.fst).filter (fun c => !(acc.contains c)))) []

/-- Line 160 / 161: `next((c for c in sel_df.columns if c.lower() == name), None)`. -/
def findColCI (df : List Row) (name : String) : Option String :=
  (dfColumns df).find? (fun c => lowerStr c == name)

structure Summary where
  credit_sum : ℚ
  debit_sum : ℚ
  credit_count : Nat
  debit_count : Nat
deriving DecidableEq, Repr

def zeroSummary : Summary := ⟨0, 0, 0, 0⟩

def Summary.net (s : Summary) : ℚ := s.credit_sum - s.debit_sum

/-- Line 167: `sel_df[type_col].astype(str).str.lower()`; the empty string
stands for "no type-named column found" (line 161's `None`). -/
def typeNorm (df : List Row) (r : Row) : String :=
  match findColCI df ("type") with
  | some tc => lowerStr (cellToStr (Row.get r tc))
  | none => ""

/-- Coerced amount of a row under the frame's amount-named column
(lines 160, 165); 0 when there is no amount-named column. -/
def selAmt (df : List Row) (r : Row) : ℚ :=
  match findColCI df ("amount") with
  | some ac => coerceAmount (Row.get r ac)
  | none => 0

/-- The amount cell of a row under the frame's amount-named column. -/
def amountCell (df : List Row) (r : Row) : Cell :=
  match findColCI df ("amount") with
  | some ac => Row.get r ac
  | none => Cell.empty

/-- What one row adds to `credit_sum` (lines 168, 170). -/
def creditContribution (df : List Row) (r : Row) : ℚ :=
  if typeNorm df r == "credit" then selAmt df r else 0

/-- What one row adds to `debit_sum` (lines 169, 171). -/
def debitContribution (df : List Row) (r : Row) : ℚ :=
  if typeNorm df r == "debit" then selAmt df r else 0

/-- Lines 160-173: the summary metrics; all zero when no amount-named or no
type-named column exists. -/
def computeSummary (df : List Row) : Summary :=
  match findColCI df ("amount") with
  | none => zeroSummary
  | some ac =>
    match findColCI df ("type") with
    | none => zeroSummary
    | some tc =>
      { credit_sum :=
          ((df.filter (fun r => lowerStr (cellToStr (Row.get r tc)) == "credit")).map
            (fun r => coerceAmount (Row.get r ac))).sum
        debit_sum :=
          ((df.filter (fun r => lowerStr (cellToStr (Row.get r tc)) == "debit")).map
            (fun r => coerceAmount (Row.get r ac))).sum
        credit_count :=
          (df.filter (fun r => lowerStr (cellToStr (Row.get r tc)) == "credit")).length
        debit_count :=
          (df.filter (fun r => lowerStr (cellToStr (Row.get r tc)) == "debit")).length }

/-- Sum of the coerced amount over all rows of the selection. -/
def totalAmt (df : List Row) : ℚ := (df.map (selAmt df)).sum

/- ------------------ dates and timestamps ------------------ -/

structure SimpleDate where
  year : Nat
  month : Nat
  day : Nat
deriving DecidableEq, Repr

structure TimeOfDay where
  hour : Nat
  minute : Nat
  second : Nat
deriving DecidableEq, Repr

/-- `date.__le__`: lexicographic comparison of calendar dates. -/
def dateLE (a b : SimpleDate) : Bool :=
  decide (a.year < b.year ∨ (a.year = b.year ∧
    (a.month < b.month ∨ (a.month = b.month ∧ a.day ≤ b.day))))

def parseNatDigits (cs : List Char) : Option Nat :=
  if cs.isEmpty ∨ ¬ (allDigits cs = true) then none else some (digitsToNat cs)

/-- "YYYY-MM-DD": three dash-separated digit groups with calendar-plausible
month and day. -/
def parseDateStr (cs : List Char) : Option SimpleDate :=
  match splitCharList '-' cs with
  | [y, m, d] =>
    match parseNatDigits y, parseNatDigits m, parseNatDigits d with
    | some yn, some mn, some dn =>
        if 1 ≤ mn ∧ mn ≤ 12 ∧ 1 ≤ dn ∧ dn ≤ 31 then some ⟨yn, mn, dn⟩ else none
    | _, _, _ => none
  | _ => none

/-- "HH:MM:SS". -/
def parseClockStr (cs : List Char) : Option TimeOfDay :=
  match splitCharList ':' cs with
  | [h, m, sec] =>
    match parseNatDigits h, parseNatDigits m, parseNatDigits sec with
    | some hn, some mn, some sn =>
        if hn ≤ 23 ∧ mn ≤ 59 ∧ sn ≤ 59 then some ⟨hn, mn, sn⟩ else none
    | _, _, _ => none
  | _ => none

/-- `pd.to_datetime(x, errors="coerce")` on a cell, for the textual formats
this app writes ("YYYY-MM-DD" and "YYYY-MM-DD HH:MM:SS"); anything else is
NaT (`none`). -/
def parseDT (c : Cell) : Option (SimpleDate × TimeOfDay) :=
  match c with
  | Cell.str s =>
    match splitCharList ' ' (trimStr s).data with
    | [d] => (parseDateStr d).map (fun dd => (dd, ⟨0, 0, 0⟩))
    | [d, t] =>
      match parseDateStr d, parseClockStr t with
      | some dd, some tt => some (dd, tt)
      | _, _ => none
    | _ => none
  | _ => none

/-- Lines 130-133: the column the timestamps are parsed from.  (In pandas,
row-filtering never changes the column set, so the check is made against the
pre-filter frame.) -/
def tsCol (df : List Row) : String :=
  if hasCol df ("timestamp") then "timestamp" else "date"

/-- The parsed timestamp of a row (NaT rows give `none`). -/
def rowTS (df : List Row) (r : Row) : Option (SimpleDate × TimeOfDay) :=
  parseDT (Row.get r (tsCol df))

/-- Line 157: `tmp["timestamp"].dt.date.between(start_sel, end_sel)`; rows
with NaT timestamps are excluded. -/
def inRange (df : List Row) (s e : SimpleDate) (r : Row) : Bool :=
  match rowTS df r with
  | some dt => dateLE s dt.1 && dateLE dt.1 e
  | none => false

/-- Lines 156-158 (and the identical mask at lines 196-198): the rows of the
frame whose timestamp date lies in `[s, e]`. -/
def selectRange (df : List Row) (s e : SimpleDate) : List Row :=
  df.filter (inRange df s e)

inductive SelectionOutcome where
  | halted (msg : String)
  | ok (rows : List Row) (s : Summary)
deriving DecidableEq, Repr

/-- Lines 119-173 after the transform step: bank filter (line 121), timestamp
derivation (lines 130-133), the `st.warning`/`st.stop` guard when no valid
dates remain (lines 135-138), then date-range selection and the summary. -/
def runSelection (df : List Row) (banks : List Cell) (s e : SimpleDate) : SelectionOutcome :=
  let fd := df.filter (fun r => banks.contains (Row.get r ("Bank")))
  if (fd.filter (fun r => (rowTS df r).isSome)).isEmpty then
    SelectionOutcome.halted ("No valid dates found.")
  else
    SelectionOutcome.ok (fd.filter (inRange df s e))
      (computeSummary (fd.filter (inRange df s e)))

/- ------------------ append coordinator (lines 206-234) ------------------ -/

def pad2 (n : Nat) : String := if n < 10 then "0" ++ toString n else toString n

def pad4 (n : Nat) : String :=
  if n < 10 then "000" ++ toString n
  else if n < 100 then "00" ++ toString n
  else if n < 1000 then "0" ++ toString n
  else toString n

/-- Line 223: `dt_combined.strftime("%Y-%m-%d %H:%M:%S")`. -/
def formatTimestamp (d : SimpleDate) (t : TimeOfDay) : String :=
  pad4 d.year ++ "-" ++ pad2 d.month ++ "-" ++ pad2 d.day ++ " " ++
    pad2 t.hour ++ ":" ++ pad2 t.minute ++ ":" ++ pad2 t.second

/-- Line 228: `new_date.isoformat()`. -/
def isoDate (d : SimpleDate) : String :=
  pad4 d.year ++ "-" ++ pad2 d.month ++ "-" ++ pad2 d.day

/-- Lines 220-234: the RawRow built for an append submission; `t` is the UTC
wall-clock time that line 222 combines with the chosen date `d`. -/
def mkNewRow (d : SimpleDate) (t : TimeOfDay) (bank ty msg : String) (amount : ℚ) : Row :=
  [("DateTime", Cell.str (formatTimestamp d t)),
   ("timestamp", Cell.str (formatTimestamp d t)),
   ("date", Cell.str (isoDate d)),
   ("Bank", Cell.str bank),
   ("Type", Cell.str ty),
   ("Amount", Cell.num amount),
   ("Message", Cell.str msg),
   ("is_deleted", Cell.str ("false"))]

/- ------------------ bank normalization ------------------ -/

/-- Missing or blank cell (NaN, or text that is empty after stripping). -/
def blankCell : Cell → Bool
  | Cell.empty => true
  | Cell.str s => (trimStr s).data.isEmpty
  | Cell.num _ => false

/-- The raw bank value of a row: column `Bank`, else `bank`. -/
def rawBank (r : Row) : Cell :=
  match r.lookup ("Bank") with
  | some c => c
  | none => Row.get r ("bank")

/-- Modelled from the spec: `transform.convert_columns_and_derives` lives in
module `transform`, which is not part of this repository snapshot (only its
call site at line 112 is).  Spec section 4.3 states that `bank`/`Bank`
defaults to the literal string "Unknown" when missing or blank, uniformly for
every row; only that bank handling is modelled here. -/
def convertBankSpec (r : Row) : Row :=
  setCol r ("Bank") (if blankCell (rawBank r) then Cell.str ("Unknown") else rawBank r)

/-- Lines 114-115: add an all-"Unknown" `Bank` column only when the converted
frame has no `Bank` column at all. -/
def bankFallback (df : List Row) : List Row :=
  if hasCol df ("Bank") then df else df.map (fun r => setCol r ("Bank") (Cell.str ("Unknown")))

/-- Line 112 followed by lines 114-115: the converted frame the sidebar
filters operate on. -/
def convertedLedger (df : List Row) : List Row :=
  bankFallback (df.map convertBankSpec)

/- ------------------ helper lemmas ------------------ -/

theorem isDeletedRow_eq_false_of_lookup_none (r : Row)
    (h : r.lookup ("is_deleted") = none) : isDeletedRow r = false := by
  unfold isDeletedRow Row.get
  rw [h]
  decide

theorem filterDeleted_eq_filter (df : List Row) :
    filterDeleted df = df.filter (fun r => !(isDeletedRow r)) := by
  unfold filterDeleted
  split
  · rfl
  · next h =>
    symm
    rw [List.filter_eq_self]
    intro r hr
    have hl : r.lookup ("is_deleted") = none := by
      rcases ho : r.lookup ("is_deleted") with _ | c
      · rfl
      · exfalso
        apply h
        simp only [hasCol, List.any_eq_true]
        exact ⟨r, hr, by simp [ho]⟩
    simp [isDeletedRow_eq_false_of_lookup_none r hl]

/- ------------------ C1 ------------------ -/

/-- C1: the delete-filtering step removes a merged row iff the row has an
`is_deleted` cell whose lower-cased string value is one of "true", "t", "1",
"yes"; and when the merged data has no `is_deleted` column at all, no row is
removed by this step. -/
theorem C1_delete_filter (df : List Row) (r : Row) (hr : r ∈ df) :
    (r ∉ filterDeleted df ↔
      ∃ c, r.lookup ("is_deleted") = some c ∧
        deletedTokens.contains (lowerStr (cellToStr c)) = true) ∧
    (hasCol df ("is_deleted") = false → filterDeleted df = df) := by
  constructor
  · rw [filterDeleted_eq_filter]
    constructor
    · intro hnot
      rcases ho : r.lookup ("is_deleted") with _ | c
      · exact absurd (List.mem_filter.mpr ⟨hr, by
          simp [isDeletedRow_eq_false_of_lookup_none r ho]⟩) hnot
      · refine ⟨c, rfl, ?_⟩
        by_contra hc
        apply hnot
        refine List.mem_filter.mpr ⟨hr, ?_⟩
        have hdel : isDeletedRow r = false := by
          unfold isDeletedRow Row.get
          rw [ho]
          simpa using hc
        simp [hdel]
    · rintro ⟨c, hl, hc⟩ hmem
      have hkeep := (List.mem_filter.mp hmem).2
      have hdel : isDeletedRow r = true := by
        unfold isDeletedRow Row.get
        rw [hl]
        exact hc
      simp [hdel] at hkeep
  · intro hcol
    unfold filterDeleted
    simp [hcol]

/-- C1 witness: the mixed-case row `is_deleted = "TRUE"` sits in a concrete
two-row merge and is removed, while the row lacking the field is kept. -/
theorem C1_delete_filter_witness :
    (([("is_deleted", Cell.str ("TRUE")), ("Amount", Cell.num 5)] : Row) ∈
      ([[("is_deleted", Cell.str ("TRUE")), ("Amount", Cell.num 5)],
        [("Amount", Cell.num 7)]] : List Row)) ∧
    ((([("is_deleted", Cell.str ("TRUE")), ("Amount", Cell.num 5)] : Row) ∉
        filterDeleted ([[("is_deleted", Cell.str ("TRUE")), ("Amount", Cell.num 5)],
          [("Amount", Cell.num 7)]] : List Row) ↔
      ∃ c, (([("is_deleted", Cell.str ("TRUE")), ("Amount", Cell.num 5)] : Row)).lookup
          ("is_deleted") = some c ∧
        deletedTokens.contains (lowerStr (cellToStr c)) = true) ∧
    (hasCol ([[("is_deleted", Cell.str ("TRUE")), ("Amount", Cell.num 5)],
        [("Amount", Cell.num 7)]] : List Row) ("is_deleted") = false →
      filterDeleted ([[("is_deleted", Cell.str ("TRUE")), ("Amount", Cell.num 5)],
        [("Amount", Cell.num 7)]] : List Row) =
        ([[("is_deleted", Cell.str ("TRUE")), ("Amount", Cell.num 5)],
          [("Amount", Cell.num 7)]] : List Row))) :=
  ⟨by decide,
   C1_delete_filter
     ([[("is_deleted", Cell.str ("TRUE")), ("Amount", Cell.num 5)],
       [("Amount", Cell.num 7)]] : List Row)
     ([("is_deleted", Cell.str ("TRUE")), ("Amount", Cell.num 5)] : Row)
     (by decide)⟩

/- ------------------ C2 ------------------ -/

/-- C2: with pairwise-distinct `(source, source_index)` tags, merging puts
history rows before append rows; after delete-filtering the ledger size is
(history rows + append rows) minus the rows marked deleted, survivors keep
their relative order within each source (they form sublists of the sources),
and every surviving history row precedes every surviving append row (the
result splits as filtered history followed by filtered append). -/
theorem C2_merge_order_and_size (h a : List Row)
    (_hdist : ((mergeRaw h a).map tagOf).Nodup) :
    (filterDeleted (mergeRaw h a)).length =
      (h.length + a.length) - ((mergeRaw h a).countP isDeletedRow) ∧
    filterDeleted (mergeRaw h a) =
      (h.filter (fun r => !(isDeletedRow r))) ++ (a.filter (fun r => !(isDeletedRow r))) ∧
    ((h.filter (fun r => !(isDeletedRow r))).Sublist h ∧
      (a.filter (fun r => !(isDeletedRow r))).Sublist a) := by
  refine ⟨?_, ?_, List.filter_sublist h, List.filter_sublist a⟩
  · rw [filterDeleted_eq_filter]
    have h1 := List.length_eq_length_filter_add (l := mergeRaw h a) isDeletedRow
    have h2 := List.countP_eq_length_filter (p := isDeletedRow) (mergeRaw h a)
    have h3 : (mergeRaw h a).length = h.length + a.length := by
      unfold mergeRaw
      exact List.length_append h a
    omega
  · rw [filterDeleted_eq_filter]
    unfold mergeRaw
    exact List.filter_append h a

/-- C2 witness: one history row and two append rows with distinct tags, one of
them soft-deleted. -/
theorem C2_merge_order_and_size_witness :
    (((mergeRaw ([[("_sheet_row_idx", Cell.num 0)]] : List Row)
        ([[("_sheet_row_idx", Cell.num 1), ("is_deleted", Cell.str ("yes"))]] : List Row)).map
      tagOf).Nodup) ∧
    ((filterDeleted (mergeRaw ([[("_sheet_row_idx", Cell.num 0)]] : List Row)
        ([[("_sheet_row_idx", Cell.num 1), ("is_deleted", Cell.str ("yes"))]] : List Row))).length =
      (([[("_sheet_row_idx", Cell.num 0)]] : List Row).length +
          ([[("_sheet_row_idx", Cell.num 1), ("is_deleted", Cell.str ("yes"))]] : List Row).length) -
        ((mergeRaw ([[("_sheet_row_idx", Cell.num 0)]] : List Row)
          ([[("_sheet_row_idx", Cell.num 1), ("is_deleted", Cell.str ("yes"))]] : List Row)).countP
            isDeletedRow) ∧
    filterDeleted (mergeRaw ([[("_sheet_row_idx", Cell.num 0)]] : List Row)
        ([[("_sheet_row_idx", Cell.num 1), ("is_deleted", Cell.str ("yes"))]] : List Row)) =
      (([[("_sheet_row_idx", Cell.num 0)]] : List Row).filter (fun r => !(isDeletedRow r))) ++
        (([[("_sheet_row_idx", Cell.num 1), ("is_deleted", Cell.str ("yes"))]] : List Row).filter
          (fun r => !(isDeletedRow r))) ∧
    ((([[("_sheet_row_idx", Cell.num 0)]] : List Row).filter
        (fun r => !(isDeletedRow r))).Sublist ([[("_sheet_row_idx", Cell.num 0)]] : List Row) ∧
      (([[("_sheet_row_idx", Cell.num 1), ("is_deleted", Cell.str ("yes"))]] : List Row).filter
        (fun r => !(isDeletedRow r))).Sublist
          ([[("_sheet_row_idx", Cell.num 1), ("is_deleted", Cell.str ("yes"))]] : List Row))) :=
  ⟨by decide,
   C2_merge_order_and_size ([[("_sheet_row_idx", Cell.num 0)]] : List Row)
     ([[("_sheet_row_idx", Cell.num 1), ("is_deleted", Cell.str ("yes"))]] : List Row)
     (by decide)⟩

/- ------------------ C3 ------------------ -/

/-- C3: an append submission yields exactly one row whose `timestamp` and
`DateTime` cells are the same "YYYY-MM-DD HH:MM:SS" string, whose `date` cell
is the ISO calendar date, and whose `is_deleted` cell is the literal string
"false", so the row survives any later delete-filtering. -/
theorem C3_append_row_shape (d : SimpleDate) (t : TimeOfDay) (bank ty msg : String)
    (amount : ℚ) :
    Row.get (mkNewRow d t bank ty msg amount) ("timestamp") =
      Cell.str (formatTimestamp d t) ∧
    Row.get (mkNewRow d t bank ty msg amount) ("DateTime") =
      Cell.str (formatTimestamp d t) ∧
    Row.get (mkNewRow d t bank ty msg amount) ("date") = Cell.str (isoDate d) ∧
    Row.get (mkNewRow d t bank ty msg amount) ("is_deleted") = Cell.str ("false") ∧
    isDeletedRow (mkNewRow d t bank ty msg amount) = false ∧
    (∀ df : List Row, mkNewRow d t bank ty msg amount ∈ df →
      mkNewRow d t bank ty msg amount ∈ filterDeleted df) := by
  refine ⟨rfl, rfl, rfl, rfl, rfl, ?_⟩
  intro df hdf
  rw [filterDeleted_eq_filter]
  exact List.mem_filter.mpr ⟨hdf, by
    have hfal : isDeletedRow (mkNewRow d t bank ty msg amount) = false := rfl
    simp [hfal]⟩

/-- C3 witness: the concrete appended row survives delete-filtering of the
append range that contains it. -/
theorem C3_append_row_shape_witness :
    (mkNewRow ⟨2024, 1, 5⟩ ⟨12, 0, 0⟩ ("HDFC Bank") ("debit") ("") 500 ∈
      ([mkNewRow ⟨2024, 1, 5⟩ ⟨12, 0, 0⟩ ("HDFC Bank") ("debit") ("") 500] : List Row)) ∧
    (mkNewRow ⟨2024, 1, 5⟩ ⟨12, 0, 0⟩ ("HDFC Bank") ("debit") ("") 500 ∈
      filterDeleted
        ([mkNewRow ⟨2024, 1, 5⟩ ⟨12, 0, 0⟩ ("HDFC Bank") ("debit") ("") 500] : List Row)) :=
  ⟨List.mem_singleton.mpr rfl,
   (C3_append_row_shape ⟨2024, 1, 5⟩ ⟨12, 0, 0⟩ ("HDFC Bank") ("debit") ("") 500).2.2.2.2.2
     ([mkNewRow ⟨2024, 1, 5⟩ ⟨12, 0, 0⟩ ("HDFC Bank") ("debit") ("") 500] : List Row)
     (List.mem_singleton.mpr rfl)⟩

/- ------------------ sum helper lemmas ------------------ -/

theorem sum_map_ite_of_filter (l : List Row) (p : Row → Bool) (f : Row → ℚ) :
    ((l.filter p).map f).sum = (l.map (fun r => if p r then f r else 0)).sum := by
  induction l with
  | nil => rfl
  | cons x xs ih =>
    by_cases hx : p x = true
    · simp [List.filter_cons, hx, ih]
    · simp [List.filter_cons, hx, ih]

theorem sum_map_congr_rows (l : List Row) (f g : Row → ℚ) (hfg : ∀ r ∈ l, f r = g r) :
    (l.map f).sum = (l.map g).sum := by
  induction l with
  | nil => rfl
  | cons x xs ih =>
    simp only [List.map_cons, List.sum_cons]
    rw [hfg x (by simp), ih (fun r hr => hfg r (by simp [hr]))]

theorem sum_map_add_split (l : List Row) (f g : Row → ℚ) :
    (l.map f).sum + (l.map g).sum = (l.map (fun r => f r + g r)).sum := by
  induction l with
  | nil => simp
  | cons x xs ih =>
    simp only [List.map_cons, List.sum_cons]
    linarith

theorem credit_sum_eq_contributions (df : List Row) :
    (computeSummary df).credit_sum = (df.map (creditContribution df)).sum := by
  rcases hA : findColCI df ("amount") with _ | ac
  · have hz : computeSummary df = zeroSummary := by
      unfold computeSummary
      rw [hA]
    have hc : ∀ r ∈ df, (fun _ : Row => (0 : ℚ)) r = creditContribution df r := by
      intro r _
      simp [creditContribution, selAmt, hA]
    rw [hz, ← sum_map_congr_rows df _ _ hc]
    simp [zeroSummary]
  · rcases hT : findColCI df ("type") with _ | tc
    · have hz : computeSummary df = zeroSummary := by
        unfold computeSummary
        rw [hA, hT]
      have hc : ∀ r ∈ df, (fun _ : Row => (0 : ℚ)) r = creditContribution df r := by
        intro r _
        simp [creditContribution, typeNorm, hT]
      rw [hz, ← sum_map_congr_rows df _ _ hc]
      simp [zeroSummary]
    · have hs : (computeSummary df).credit_sum =
          ((df.filter (fun r => lowerStr (cellToStr (Row.get r tc)) == "credit")).map
            (fun r => coerceAmount (Row.get r ac))).sum := by
        unfold computeSummary
        rw [hA, hT]
      rw [hs, sum_map_ite_of_filter]
      apply sum_map_congr_rows
      intro r _
      simp [creditContribution, typeNorm, selAmt, hA, hT]

theorem debit_sum_eq_contributions (df : List Row) :
    (computeSummary df).debit_sum = (df.map (debitContribution df)).sum := by
  rcases hA : findColCI df ("amount") with _ | ac
  · have hz : computeSummary df = zeroSummary := by
      unfold computeSummary
      rw [hA]
    have hc : ∀ r ∈ df, (fun _ : Row => (0 : ℚ)) r = debitContribution df r := by
      intro r _
      simp [debitContribution, selAmt, hA]
    rw [hz, ← sum_map_congr_rows df _ _ hc]
    simp [zeroSummary]
  · rcases hT : findColCI df ("type") with _ | tc
    · have hz : computeSummary df = zeroSummary := by
        unfold computeSummary
        rw [hA, hT]
      have hc : ∀ r ∈ df, (fun _ : Row => (0 : ℚ)) r = debitContribution df r := by
        intro r _
        simp [debitContribution, typeNorm, hT]
      rw [hz, ← sum_map_congr_rows df _ _ hc]
      simp [zeroSummary]
    · have hs : (computeSummary df).debit_sum =
          ((df.filter (fun r => lowerStr (cellToStr (Row.get r tc)) == "debit")).map
            (fun r => coerceAmount (Row.get r ac))).sum := by
        unfold computeSummary
        rw [hA, hT]
      rw [hs, sum_map_ite_of_filter]
      apply sum_map_congr_rows
      intro r _
      simp [debitContribution, typeNorm, selAmt, hA, hT]

/- ------------------ C4 ------------------ -/

/-- C4 counterexample: a selection holding one row of unrecognized type "fee"
with amount "-5" has `credit_sum + debit_sum = 0` but total coerced amount
`-5`, so the claimed inequality fails. -/
theorem C4_counterexample :
    ¬ ((computeSummary ([[("Type", Cell.str ("fee")),
          ("Amount", Cell.str ("-5"))]] : List Row)).credit_sum +
        (computeSummary ([[("Type", Cell.str ("fee")),
          ("Amount", Cell.str ("-5"))]] : List Row)).debit_sum ≤
        totalAmt ([[("Type", Cell.str ("fee")), ("Amount", Cell.str ("-5"))]] : List Row)) := by
  have h1 : computeSummary ([[("Type", Cell.str ("fee")),
      ("Amount", Cell.str ("-5"))]] : List Row) = zeroSummary := by decide
  have h2 : totalAmt ([[("Type", Cell.str ("fee")),
      ("Amount", Cell.str ("-5"))]] : List Row) = -5 := by
    show (List.map _ _).sum = -5
    rw [List.map_cons, List.map_nil, List.sum_cons, List.sum_nil, add_zero]
    decide
  rw [h1, h2]
  norm_num [zeroSummary]

/-- C4 amended: when every selected row's coerced amount is nonnegative,
`credit_sum + debit_sum` never exceeds the sum of the coerced amount over all
selected rows; and it equals that sum whenever every selected row's normalized
type is "credit" or "debit" (with amounts of arbitrary sign). -/
theorem C4_amended_sums (df : List Row) :
    ((∀ r ∈ df, 0 ≤ selAmt df r) →
      (computeSummary df).credit_sum + (computeSummary df).debit_sum ≤ totalAmt df) ∧
    ((∀ r ∈ df, typeNorm df r = "credit" ∨ typeNorm df r = "debit") →
      (computeSummary df).credit_sum + (computeSummary df).debit_sum = totalAmt df) := by
  have hc := credit_sum_eq_contributions df
  have hd := debit_sum_eq_contributions df
  have hsplit := sum_map_add_split df (creditContribution df) (debitContribution df)
  constructor
  · intro hpos
    rw [hc, hd, hsplit]
    unfold totalAmt
    apply List.sum_le_sum
    intro r hr
    unfold creditContribution debitContribution
    by_cases h1 : typeNorm df r == "credit"
    · have h2 : (typeNorm df r == "debit") = false := by
        have he : typeNorm df r = "credit" := by
          exact eq_of_beq h1
        rw [he]
        decide
      simp [h1, h2]
    · by_cases h2 : typeNorm df r == "debit"
      · simp [h1, h2]
      · simp only [h1, h2]
        simpa using hpos r hr
  · intro htyped
    rw [hc, hd, hsplit]
    unfold totalAmt
    apply sum_map_congr_rows
    intro r hr
    unfold creditContribution debitContribution
    rcases htyped r hr with h1 | h1
    · have e2 : (typeNorm df r == "debit") = false := by
        rw [h1]
        decide
      simp [h1, e2]
    · have e1 : (typeNorm df r == "credit") = false := by
        rw [h1]
        decide
      simp [h1, e1]

/-- C4 witness: a one-row credit selection meets both amended hypotheses and
both conclusions. -/
theorem C4_amended_sums_witness :
    ((computeSummary ([[("Type", Cell.str ("credit")),
        ("Amount", Cell.num 100)]] : List Row)).credit_sum +
      (computeSummary ([[("Type", Cell.str ("credit")),
        ("Amount", Cell.num 100)]] : List Row)).debit_sum ≤
      totalAmt ([[("Type", Cell.str ("credit")), ("Amount", Cell.num 100)]] : List Row)) ∧
    ((computeSummary ([[("Type", Cell.str ("credit")),
        ("Amount", Cell.num 100)]] : List Row)).credit_sum +
      (computeSummary ([[("Type", Cell.str ("credit")),
        ("Amount", Cell.num 100)]] : List Row)).debit_sum =
      totalAmt ([[("Type", Cell.str ("credit")), ("Amount", Cell.num 100)]] : List Row)) :=
  ⟨(C4_amended_sums ([[("Type", Cell.str ("credit")),
      ("Amount", Cell.num 100)]] : List Row)).1 (by decide),
   (C4_amended_sums ([[("Type", Cell.str ("credit")),
      ("Amount", Cell.num 100)]] : List Row)).2 (by decide)⟩

/- ------------------ C5 ------------------ -/

/-- C5 counterexample: with both sources empty the pipeline does not return
the empty ledger — the run halts at the `st.error` guard of line 96. -/
theorem C5_counterexample :
    runMergePhase ([] : List Row) ([] : List Row) ≠
      PipelineResult.ledger ([] : List Row) := by
  decide

/-- C5 amended: when both sources yield zero rows the pipeline halts with the
error-level message "No data found in the Google Sheet." before any merge
runs (a controlled stop, not an exception); the merge plus delete-filter of
two empty sources does itself yield the empty ledger. -/
theorem C5_amended_empty_sources :
    runMergePhase ([] : List Row) ([] : List Row) =
      PipelineResult.stopped ("No data found in the Google Sheet.") true ∧
    filterDeleted (mergeRaw ([] : List Row) ([] : List Row)) = ([] : List Row) :=
  ⟨rfl, rfl⟩

/- ------------------ C6 ------------------ -/

/-- C6 counterexample: on a one-row ledger with a parsable timestamp, an empty
bank selection leads the cycle to halt at the "No valid dates found." guard;
it does not report an empty result with a zero-valued Summary. -/
theorem C6_counterexample :
    runSelection ([[("Bank", Cell.str ("HDFC")),
        ("timestamp", Cell.str ("2024-01-01 00:00:00"))]] : List Row) []
      ⟨2024, 1, 1⟩ ⟨2024, 1, 1⟩ ≠
    SelectionOutcome.ok [] zeroSummary := by
  decide

/-- C6 amended: an empty bank selection yields an empty filtered sequence and
the cycle then halts with the warning "No valid dates found." before any
Summary is computed; no zero-valued Summary is produced. -/
theorem C6_amended_empty_banks (df : List Row) (s e : SimpleDate) :
    df.filter (fun r => (([] : List Cell)).contains (Row.get r ("Bank"))) = [] ∧
    runSelection df [] s e = SelectionOutcome.halted ("No valid dates found.") := by
  have hf : df.filter (fun r => (([] : List Cell)).contains (Row.get r ("Bank"))) = [] := by
    rw [List.filter_eq_nil_iff]
    intro r _
    simp [List.contains]
  refine ⟨hf, ?_⟩
  simp only [runSelection]
  rw [hf]
  simp

/- ------------------ C7 ------------------ -/

theorem dateLE_trans (a b c : SimpleDate) (h1 : dateLE a b = true)
    (h2 : dateLE b c = true) : dateLE a c = true := by
  simp only [dateLE, decide_eq_true_eq] at h1 h2 ⊢
  omega

/-- C7: when the selected start date is after the end date, date-range
selection returns an empty row set and a zero-valued Summary (net 0); the
selection and summary are total functions, so no exception is possible. -/
theorem C7_start_after_end (df : List Row) (s e : SimpleDate)
    (h : dateLE s e = false) :
    selectRange df s e = [] ∧
    computeSummary (selectRange df s e) = zeroSummary ∧
    (computeSummary (selectRange df s e)).net = 0 := by
  have hsel : selectRange df s e = [] := by
    unfold selectRange
    rw [List.filter_eq_nil_iff]
    intro r _
    unfold inRange
    rcases hts : rowTS df r with _ | dt
    · simp
    · simp only [Bool.and_eq_true, not_and]
      intro hs he
      have h3 := dateLE_trans s dt.1 e hs he
      rw [h] at h3
      simp at h3
  have hz : computeSummary ([] : List Row) = zeroSummary := rfl
  refine ⟨hsel, ?_, ?_⟩
  · rw [hsel, hz]
  · rw [hsel, hz]
    simp [Summary.net, zeroSummary]

/-- C7 witness: a concrete one-row ledger with start 2024-05-02 after end
2024-05-01. -/
theorem C7_start_after_end_witness :
    dateLE ⟨2024, 5, 2⟩ ⟨2024, 5, 1⟩ = false ∧
    (selectRange ([[("timestamp", Cell.str ("2024-05-01 10:00:00"))]] : List Row)
        ⟨2024, 5, 2⟩ ⟨2024, 5, 1⟩ = [] ∧
      computeSummary (selectRange ([[("timestamp", Cell.str ("2024-05-01 10:00:00"))]] : List Row)
        ⟨2024, 5, 2⟩ ⟨2024, 5, 1⟩) = zeroSummary ∧
      (computeSummary (selectRange ([[("timestamp", Cell.str ("2024-05-01 10:00:00"))]] : List Row)
        ⟨2024, 5, 2⟩ ⟨2024, 5, 1⟩)).net = 0) :=
  ⟨by decide,
   C7_start_after_end ([[("timestamp", Cell.str ("2024-05-01 10:00:00"))]] : List Row)
     ⟨2024, 5, 2⟩ ⟨2024, 5, 1⟩ (by decide)⟩

/- ------------------ C8 ------------------ -/

/-- C8: a failed range read contributes zero rows; merging then reproduces
exactly the surviving source's tagged rows, and when the surviving source is
nonempty, the single-source failure never triggers the no-data abort — the
pipeline continues past the read failure. -/
theorem C8_source_failure_degrades (msg : String) (appRows : List Row)
    (hne : appRows ≠ []) :
    read_sheet_with_index (Except.error msg) ("history") = [] ∧
    mergeRaw (read_sheet_with_index (Except.error msg) ("history"))
        (read_sheet_with_index (Except.ok appRows) ("append")) =
      read_sheet_with_index (Except.ok appRows) ("append") ∧
    runMergePhase (read_sheet_with_index (Except.error msg) ("history"))
        (read_sheet_with_index (Except.ok appRows) ("append")) ≠
      PipelineResult.stopped ("No data found in the Google Sheet.") true := by
  have hne2 : (read_sheet_with_index (Except.ok appRows) ("append")).isEmpty = false := by
    have hlen : (read_sheet_with_index (Except.ok appRows) ("append")).length =
        appRows.length := by
      unfold read_sheet_with_index
      rw [List.length_map, List.enum_length]
    rcases hE : (read_sheet_with_index (Except.ok appRows) ("append")).isEmpty
    · rfl
    · exfalso
      have h0 := List.isEmpty_iff_length_eq_zero.mp hE
      rw [hlen] at h0
      exact hne (List.length_eq_zero.mp h0)
  refine ⟨rfl, rfl, ?_⟩
  simp only [runMergePhase]
  rw [show read_sheet_with_index (Except.error msg) ("history") = ([] : List Row) from rfl]
  rw [List.isEmpty_nil, Bool.true_and, hne2]
  intro hcon
  rw [if_neg (by simp)] at hcon
  split at hcon
  · simp at hcon
  · simp at hcon

/-- C8 witness: the append source holds one concrete row while the history
read fails. -/
theorem C8_source_failure_degrades_witness :
    read_sheet_with_index (Except.error ("boom")) ("history") = [] ∧
    mergeRaw (read_sheet_with_index (Except.error ("boom")) ("history"))
        (read_sheet_with_index (Except.ok ([[("Amount", Cell.num 1)]] : List Row)) ("append")) =
      read_sheet_with_index (Except.ok ([[("Amount", Cell.num 1)]] : List Row)) ("append") ∧
    runMergePhase (read_sheet_with_index (Except.error ("boom")) ("history"))
        (read_sheet_with_index (Except.ok ([[("Amount", Cell.num 1)]] : List Row)) ("append")) ≠
      PipelineResult.stopped ("No data found in the Google Sheet.") true :=
  C8_source_failure_degrades ("boom") ([[("Amount", Cell.num 1)]] : List Row) (by decide)

/- ------------------ setCol lemmas ------------------ -/

theorem lookup_setCol_self (r : Row) (k : String) (v : Cell) :
    (setCol r k v).lookup k = some v := by
  unfold setCol
  induction r with
  | nil => simp [List.lookup]
  | cons p ps ih =>
    rcases p with ⟨pk, pv⟩
    by_cases hp : k = pk
    · have h1 : (pk != k) = false := by simp [bne, hp.symm]
      simpa [List.filter_cons, h1] using ih
    · have h1 : (pk != k) = true := by
        simp only [bne_iff_ne, ne_eq]
        exact fun hc => hp hc.symm
      have h2 : (k == pk) = false := by
        simp [hp]
      simp only [List.filter_cons, h1, if_true]
      simpa [List.lookup, h2] using ih

theorem get_setCol_self (r : Row) (k : String) (v : Cell) :
    Row.get (setCol r k v) k = v := by
  unfold Row.get
  rw [lookup_setCol_self]

/- ------------------ C9 ------------------ -/

/-- C9: every row of the converted ledger carries a non-blank bank value, and
the (spec-modelled) normalizer maps every row whose raw bank is missing or
blank to the same literal sentinel "Unknown" — ledger-wide, not only when the
whole Bank column is absent. -/
theorem C9_bank_default (df : List Row) (r : Row) (hr : r ∈ convertedLedger df) :
    blankCell (Row.get r ("Bank")) = false ∧
    (∀ r0 ∈ df, blankCell (rawBank r0) = true →
      Row.get (convertBankSpec r0) ("Bank") = Cell.str ("Unknown")) := by
  constructor
  · unfold convertedLedger bankFallback at hr
    by_cases hB : hasCol (df.map convertBankSpec) ("Bank") = true
    · rw [if_pos hB] at hr
      rcases List.mem_map.mp hr with ⟨r0, _, hre⟩
      subst hre
      unfold convertBankSpec
      rw [get_setCol_self]
      by_cases hb : blankCell (rawBank r0) = true
      · rw [if_pos hb]
        decide
      · rw [if_neg hb]
        simpa using hb
    · rw [if_neg hB] at hr
      rcases List.mem_map.mp hr with ⟨r1, _, hre⟩
      subst hre
      rw [get_setCol_self]
      decide
  · intro r0 _ hb
    unfold convertBankSpec
    rw [get_setCol_self, if_pos hb]

/-- C9 witness: a ledger with one blank-bank row; its converted form carries
the "Unknown" sentinel. -/
theorem C9_bank_default_witness :
    (([("Amount", Cell.num 1), ("Bank", Cell.str ("Unknown"))] : Row) ∈
      convertedLedger ([[("Bank", Cell.str (" ")), ("Amount", Cell.num 1)]] : List Row)) ∧
    (blankCell (Row.get ([("Amount", Cell.num 1), ("Bank", Cell.str ("Unknown"))] : Row)
        ("Bank")) = false ∧
      (∀ r0 ∈ ([[("Bank", Cell.str (" ")), ("Amount", Cell.num 1)]] : List Row),
        blankCell (rawBank r0) = true →
          Row.get (convertBankSpec r0) ("Bank") = Cell.str ("Unknown"))) :=
  ⟨by decide,
   C9_bank_default ([[("Bank", Cell.str (" ")), ("Amount", Cell.num 1)]] : List Row)
     ([("Amount", Cell.num 1), ("Bank", Cell.str ("Unknown"))] : Row) (by decide)⟩

/- ------------------ C10 ------------------ -/

/-- C10: a selected row whose amount cell is non-numeric or empty is retained
in the selected sequence and contributes exactly 0 to `credit_sum` and to
`debit_sum`, where those sums are precisely the sums of the per-row
contributions over the selection. -/
theorem C10_unparsable_amount (sel : List Row) (r : Row) (hmem : r ∈ sel)
    (hbad : unparsableAmount (amountCell sel r) = true) :
    r ∈ sel ∧
    creditContribution sel r = 0 ∧
    debitContribution sel r = 0 ∧
    (computeSummary sel).credit_sum = (sel.map (creditContribution sel)).sum ∧
    (computeSummary sel).debit_sum = (sel.map (debitContribution sel)).sum := by
  have hz : selAmt sel r = 0 := by
    unfold amountCell at hbad
    unfold selAmt
    rcases hA : findColCI sel ("amount") with _ | ac
    · rfl
    · rw [hA] at hbad
      have hbad2 : unparsableAmount (Row.get r ac) = true := hbad
      show coerceAmount (Row.get r ac) = 0
      cases hc : Row.get r ac with
      | str s =>
        rw [hc] at hbad2
        unfold unparsableAmount at hbad2
        rw [Option.isNone_iff_eq_none] at hbad2
        show (parseNumeric s).getD 0 = 0
        rw [hbad2]
        rfl
      | num q =>
        rw [hc] at hbad2
        simp [unparsableAmount] at hbad2
      | empty => rfl
  refine ⟨hmem, ?_, ?_, credit_sum_eq_contributions sel, debit_sum_eq_contributions sel⟩
  · unfold creditContribution
    rw [hz]
    simp
  · unfold debitContribution
    rw [hz]
    simp

/-- C10 witness: a one-row selection with the unparsable amount "N/A". -/
theorem C10_unparsable_amount_witness :
    (unparsableAmount (amountCell
        ([[("Type", Cell.str ("debit")), ("Amount", Cell.str ("N/A"))]] : List Row)
        ([("Type", Cell.str ("debit")), ("Amount", Cell.str ("N/A"))] : Row)) = true) ∧
    (([("Type", Cell.str ("debit")), ("Amount", Cell.str ("N/A"))] : Row) ∈
        ([[("Type", Cell.str ("debit")), ("Amount", Cell.str ("N/A"))]] : List Row) ∧
      creditContribution ([[("Type", Cell.str ("debit")), ("Amount", Cell.str ("N/A"))]] : List Row)
        ([("Type", Cell.str ("debit")), ("Amount", Cell.str ("N/A"))] : Row) = 0 ∧
      debitContribution ([[("Type", Cell.str ("debit")), ("Amount", Cell.str ("N/A"))]] : List Row)
        ([("Type", Cell.str ("debit")), ("Amount", Cell.str ("N/A"))] : Row) = 0 ∧
      (computeSummary ([[("Type", Cell.str ("debit")),
          ("Amount", Cell.str ("N/A"))]] : List Row)).credit_sum =
        (([[("Type", Cell.str ("debit")), ("Amount", Cell.str ("N/A"))]] : List Row).map
          (creditContribution ([[("Type", Cell.str ("debit")),
            ("Amount", Cell.str ("N/A"))]] : List Row))).sum ∧
      (computeSummary ([[("Type", Cell.str ("debit")),
          ("Amount", Cell.str ("N/A"))]] : List Row)).debit_sum =
        (([[("Type", Cell.str ("debit")), ("Amount", Cell.str ("N/A"))]] : List Row).map
          (debitContribution ([[("Type", Cell.str ("debit")),
            ("Amount", Cell.str ("N/A"))]] : List Row))).sum) :=
  ⟨by decide,
   C10_unparsable_amount
     ([[("Type", Cell.str ("debit")), ("Amount", Cell.str ("N/A"))]] : List Row)
     ([("Type", Cell.str ("debit")), ("Amount", Cell.str ("N/A"))] : Row)
     (by decide) (by decide)⟩
